import Mathlib

/-!
Verification of the Dittofeed deployment smoke-test script
(src/deployment/test-deployment.py).

The script issues a straight-line sequence of HTTP GET requests against
configured URLs, classifies each response by status code into a boolean,
collects (name, boolean) pairs into a results list, and exits 0 exactly when
every check passed.

Shallow embedding: the external HTTP server is an oracle answering the n-th
GET request of the run; each call to requests.get consumes the next oracle
answer and records the requested URL in a trace.  Console printing is
output-only and is not modelled, except for the printed pass count, which is
modelled by the function computing it.
-/

/-- Outcome of one HTTP GET request as the script observes it: one of the
three caught exception classes (requests.exceptions.ConnectionError,
requests.exceptions.Timeout, or any other Exception), or a response carrying
an HTTP status code together with a flag recording whether the body parses as
JSON (the only fact about the body the script ever consults, line 62). -/
inductive GetOutcome where
  | connectionError : GetOutcome
  | timeout : GetOutcome
  | otherError : GetOutcome
  | response : Nat → Bool → GetOutcome
deriving DecidableEq, Repr

/-- The external HTTP server, modelled as an oracle answering the n-th GET
request issued during the run.  Two GETs of the same URL may receive
different answers, as with a real server. -/
structure World where
  oracle : Nat → GetOutcome

/-- Bookkeeping of the requests issued so far: how many, and the requested
URLs in order of issuance. -/
structure TraceState where
  count : Nat
  urls : List String
deriving DecidableEq, Repr

/-- One call to requests.get: consumes the next oracle answer and records the
requested URL. -/
def httpGet (w : World) (url : String) (st : TraceState) : GetOutcome × TraceState :=
  (w.oracle st.count, ⟨st.count + 1, st.urls ++ [url]⟩)

/-- The three configuration values read from the environment (lines 13-15). -/
structure Config where
  apiUrl : String
  dashboardUrl : String
  authMode : String
deriving DecidableEq, Repr

/-- The defaults used when the environment variables are unset (lines 13-15). -/
def defaultConfig : Config :=
  ⟨"https://api.com.caramelme.com", "https://dashboard.com.caramelme.com", "multi-tenant"⟩

/-- test_endpoint (lines 30-54): one GET with redirects followed; returns True
when the status code equals expected_status or is in [200, 301, 302, 304],
False on any other status code, and False on each of the three caught
exception classes.  In the source expected_status defaults to 200; callers
here pass it explicitly. -/
def test_endpoint (w : World) (url : String) (expectedStatus : Nat) (st : TraceState) :
    Bool × TraceState :=
  match httpGet w url st with
  | (GetOutcome.response status _, st') =>
      if status = expectedStatus then (true, st')
      else if status ∈ [200, 301, 302, 304] then (true, st')
      else (false, st')
  | (_, st') => (false, st')

/-- test_api_health (lines 56-67): issues a GET to {API_URL}/health; on a
status-200 response whose body parses as JSON it returns True at once.  In
every other case — non-200 status, JSON parse failure, or any exception, all
swallowed by the bare except — it falls through to test_endpoint on the same
URL, which issues a second GET. -/
def test_api_health (w : World) (cfg : Config) (st : TraceState) : Bool × TraceState :=
  let p := httpGet w (cfg.apiUrl ++ "/health") st
  if p.1 = GetOutcome.response 200 true then (true, p.2)
  else test_endpoint w (cfg.apiUrl ++ "/health") 200 p.2

/-- test_dashboard (lines 69-71): the generic checker on DASHBOARD_URL with
expected_status=200. -/
def test_dashboard (w : World) (cfg : Config) (st : TraceState) : Bool × TraceState :=
  test_endpoint w cfg.dashboardUrl 200 st

/-- test_api_root (lines 73-75): the generic checker on API_URL with the
default expected_status of 200. -/
def test_api_root (w : World) (cfg : Config) (st : TraceState) : Bool × TraceState :=
  test_endpoint w cfg.apiUrl 200 st

/-- The check-running part of main (lines 87-99): the results list in order of
issuance, together with the final request trace. -/
def main_results (w : World) (cfg : Config) : List (String × Bool) × TraceState :=
  let st0 : TraceState := ⟨0, []⟩
  let p1 := test_api_health w cfg st0
  let p2 := test_api_root w cfg p1.2
  let p3 := test_dashboard w cfg p2.2
  let results := [("API Health", p1.1), ("API Root", p2.1), ("Dashboard", p3.1)]
  if cfg.authMode = "multi-tenant" then
    let p4 := test_endpoint w (cfg.apiUrl ++ "/api/workspaces") 200 p3.2
    (results ++ [("Workspaces", p4.1)], p4.2)
  else
    (results, p3.2)

/-- passed = sum(1 for _, result in results if result) (line 104): the printed
count of passing checks. -/
def passed_count (results : List (String × Bool)) : Nat :=
  (results.filter (fun p => p.2)).length

/-- The summary part of main (lines 104-127): exit code 0 when the pass count
equals the total, 1 otherwise. -/
def main_exit (w : World) (cfg : Config) : Nat :=
  let results := (main_results w cfg).1
  let passed := passed_count results
  let total := results.length
  if passed = total then 0 else 1

/-! ### Helper lemmas about the individual checkers -/

/-- When the oracle answers with a response, test_endpoint returns the
status-code classification and advances the trace by the one GET. -/
theorem test_endpoint_response (w : World) (url : String) (e : Nat) (st : TraceState)
    (s : Nat) (b : Bool) (h : w.oracle st.count = GetOutcome.response s b) :
    test_endpoint w url e st =
      (decide (s = e ∨ s = 200 ∨ s = 301 ∨ s = 302 ∨ s = 304),
       ⟨st.count + 1, st.urls ++ [url]⟩) := by
  simp only [test_endpoint, httpGet, h]
  by_cases h1 : s = e
  · simp [h1]
  · by_cases h2 : s = 200 <;> by_cases h3 : s = 301 <;> by_cases h4 : s = 302 <;>
      by_cases h5 : s = 304 <;> simp [h1, h2, h3, h4, h5]

/-- When the oracle raises any of the three caught exception classes,
test_endpoint returns False and advances the trace by the one GET. -/
theorem test_endpoint_exn (w : World) (url : String) (e : Nat) (st : TraceState)
    (h : w.oracle st.count = GetOutcome.connectionError ∨
         w.oracle st.count = GetOutcome.timeout ∨
         w.oracle st.count = GetOutcome.otherError) :
    test_endpoint w url e st = (false, ⟨st.count + 1, st.urls ++ [url]⟩) := by
  rcases h with h | h | h <;> simp [test_endpoint, httpGet, h]

/-- test_endpoint always issues exactly one GET: the final trace extends the
initial one by the requested URL. -/
theorem test_endpoint_snd (w : World) (url : String) (e : Nat) (st : TraceState) :
    (test_endpoint w url e st).2 = ⟨st.count + 1, st.urls ++ [url]⟩ := by
  cases h : w.oracle st.count with
  | response s b => rw [test_endpoint_response w url e st s b h]
  | connectionError => rw [test_endpoint_exn w url e st (Or.inl h)]
  | timeout => rw [test_endpoint_exn w url e st (Or.inr (Or.inl h))]
  | otherError => rw [test_endpoint_exn w url e st (Or.inr (Or.inr h))]

/-- When the first GET yields HTTP 200 with a JSON body, test_api_health
returns True after that single GET. -/
theorem test_api_health_ok (w : World) (cfg : Config) (st : TraceState)
    (h : w.oracle st.count = GetOutcome.response 200 true) :
    test_api_health w cfg st =
      (true, ⟨st.count + 1, st.urls ++ [cfg.apiUrl ++ "/health"]⟩) := by
  simp [test_api_health, httpGet, h]

/-- In every other case test_api_health falls back to test_endpoint on the
same URL, issuing a second GET from the advanced trace. -/
theorem test_api_health_fallback (w : World) (cfg : Config) (st : TraceState)
    (h : w.oracle st.count ≠ GetOutcome.response 200 true) :
    test_api_health w cfg st =
      test_endpoint w (cfg.apiUrl ++ "/health") 200
        ⟨st.count + 1, st.urls ++ [cfg.apiUrl ++ "/health"]⟩ := by
  simp [test_api_health, httpGet, h]

/-! ### Helper lemmas about the orchestrator -/

/-- The full request trace of a run: the health URL once or twice depending
on the first answer, then the API root, the dashboard, and conditionally the
workspaces URL. -/
theorem main_results_urls (w : World) (cfg : Config) :
    (main_results w cfg).2.urls =
      (if w.oracle 0 = GetOutcome.response 200 true
        then [cfg.apiUrl ++ "/health"]
        else [cfg.apiUrl ++ "/health", cfg.apiUrl ++ "/health"]) ++
      [cfg.apiUrl, cfg.dashboardUrl] ++
      (if cfg.authMode = "multi-tenant" then [cfg.apiUrl ++ "/api/workspaces"] else []) := by
  by_cases h0 : w.oracle 0 = GetOutcome.response 200 true <;>
    by_cases hm : cfg.authMode = "multi-tenant" <;>
      simp [main_results, test_api_root, test_dashboard, h0, hm,
            test_api_health_ok, test_api_health_fallback, test_endpoint_snd]

/-- The names in the results list, in order. -/
theorem main_results_names (w : World) (cfg : Config) :
    (main_results w cfg).1.map Prod.fst =
      ["API Health", "API Root", "Dashboard"] ++
      (if cfg.authMode = "multi-tenant" then ["Workspaces"] else []) := by
  by_cases hm : cfg.authMode = "multi-tenant" <;> simp [main_results, hm]

/-- The results list has four entries in multi-tenant mode and three
otherwise. -/
theorem main_results_length (w : World) (cfg : Config) :
    (main_results w cfg).1.length =
      if cfg.authMode = "multi-tenant" then 4 else 3 := by
  by_cases hm : cfg.authMode = "multi-tenant" <;> simp [main_results, hm]

/-! ### Helper lemmas about the pass count -/

/-- The printed pass count never exceeds the number of checks. -/
theorem passed_count_le (results : List (String × Bool)) :
    passed_count results ≤ results.length :=
  List.length_filter_le _ results

/-- The pass count equals the total exactly when every entry passed. -/
theorem passed_count_eq_length_iff (results : List (String × Bool)) :
    passed_count results = results.length ↔
      results.all (fun p => p.2) = true := by
  rw [passed_count, List.filter_length_eq_length, List.all_eq_true]

/-! ### The claims -/

/-- Claim C1: for every response received by test_endpoint with expected
status e, it returns true if and only if the response status code equals e or
is one of {200, 301, 302, 304}; any other status code yields false. -/
theorem c1_test_endpoint_success_iff (w : World) (url : String) (e : Nat)
    (st : TraceState) (s : Nat) (b : Bool)
    (h : w.oracle st.count = GetOutcome.response s b) :
    ((test_endpoint w url e st).1 = true ↔
      (s = e ∨ s = 200 ∨ s = 301 ∨ s = 302 ∨ s = 304)) := by
  rw [test_endpoint_response w url e st s b h]
  simp

/-- Witness for C1 at a concrete 301 response against expected status 404. -/
theorem c1_witness :
    ((test_endpoint ⟨fun _ => GetOutcome.response 301 false⟩ "u" 404 ⟨0, []⟩).1 = true ↔
      (301 = 404 ∨ 301 = 200 ∨ 301 = 301 ∨ 301 = 302 ∨ 301 = 304)) :=
  c1_test_endpoint_success_iff ⟨fun _ => GetOutcome.response 301 false⟩ "u" 404
    ⟨0, []⟩ 301 false rfl

/-- Claim C2: main returns exit code 0 if and only if every entry in the
results list has pass=true, and returns 1 otherwise. -/
theorem c2_exit_zero_iff_all_pass (w : World) (cfg : Config) :
    main_exit w cfg =
      if (main_results w cfg).1.all (fun p => p.2) then 0 else 1 := by
  simp only [main_exit]
  exact if_congr (passed_count_eq_length_iff _) rfl rfl

/-- Claim C3: the Workspaces check is present in the results list if and only
if AUTH_MODE equals "multi-tenant" exactly; for any other AUTH_MODE value the
results list contains exactly 3 entries. -/
theorem c3_workspaces_iff_multi_tenant (w : World) (cfg : Config) :
    (("Workspaces" ∈ (main_results w cfg).1.map Prod.fst) ↔
      cfg.authMode = "multi-tenant") ∧
    (main_results w cfg).1.length =
      (if cfg.authMode = "multi-tenant" then 4 else 3) := by
  refine ⟨?_, main_results_length w cfg⟩
  rw [main_results_names]
  by_cases hm : cfg.authMode = "multi-tenant" <;> simp [hm]

/-- Claim C4: on every caught exception (connection failure, timeout, or any
other exception) test_endpoint returns false; it never propagates the
exception, returning a value — the boolean together with the trace advanced by
the single GET — to its caller on every input (totality is intrinsic to the
embedding: the function is a total Lean function). -/
theorem c4_exception_yields_false (w : World) (url : String) (e : Nat)
    (st : TraceState)
    (h : w.oracle st.count = GetOutcome.connectionError ∨
         w.oracle st.count = GetOutcome.timeout ∨
         w.oracle st.count = GetOutcome.otherError) :
    test_endpoint w url e st = (false, ⟨st.count + 1, st.urls ++ [url]⟩) :=
  test_endpoint_exn w url e st h

/-- Witness for C4 at a concrete connection failure. -/
theorem c4_witness :
    test_endpoint ⟨fun _ => GetOutcome.connectionError⟩ "u" 200 ⟨0, []⟩ =
      (false, ⟨1, ["u"]⟩) :=
  c4_exception_yields_false ⟨fun _ => GetOutcome.connectionError⟩ "u" 200 ⟨0, []⟩
    (Or.inl rfl)

/-- Claim C5: for every combination of check outcomes, main runs every
configured check, each contributing exactly one entry to the results list,
and always reaches the summary stage; in particular the Dashboard URL is
requested in every world, including those where the API URL raises a
connection error. -/
theorem c5_every_check_runs (w : World) (cfg : Config) :
    (main_results w cfg).1.map Prod.fst =
      ["API Health", "API Root", "Dashboard"] ++
        (if cfg.authMode = "multi-tenant" then ["Workspaces"] else []) ∧
    cfg.dashboardUrl ∈ (main_results w cfg).2.urls := by
  refine ⟨main_results_names w cfg, ?_⟩
  rw [main_results_urls]
  simp

/-- Claim C6 counterexample: the claim that no endpoint receives more than one
GET is false.  In a world where every request gets an HTTP 500 response, the
health URL is requested twice in one run (test_api_health falls back to
test_endpoint, which repeats the GET). -/
theorem c6_counterexample :
    ((main_results ⟨fun _ => GetOutcome.response 500 false⟩
        ⟨"a", "d", "single-tenant"⟩).2.urls.count ("a" ++ "/health")) = 2 := by
  decide

/-- Claim C6 as amended: each run issues GETs in this exact order — the health
URL once when the first answer is HTTP 200 with a JSON body and twice
otherwise, then one GET each to the API root and dashboard URLs, then one GET
to the workspaces URL exactly when AUTH_MODE is "multi-tenant". -/
theorem c6_amended_request_trace (w : World) (cfg : Config) :
    (main_results w cfg).2.urls =
      (if w.oracle 0 = GetOutcome.response 200 true
        then [cfg.apiUrl ++ "/health"]
        else [cfg.apiUrl ++ "/health", cfg.apiUrl ++ "/health"]) ++
      [cfg.apiUrl, cfg.dashboardUrl] ++
      (if cfg.authMode = "multi-tenant" then [cfg.apiUrl ++ "/api/workspaces"] else []) :=
  main_results_urls w cfg

/-- Spec-side definition of the health-endpoint checker, following section 4.2
of the spec: identical to the generic endpoint checker applied to
{API_URL}/health with the default expected status of 200; the JSON
parse-and-print step is output-only and has no distinct failure mode. -/
def healthCheckSpec (w : World) (cfg : Config) (st : TraceState) : Bool :=
  (test_endpoint w (cfg.apiUrl ++ "/health") 200 st).1

/-- Claim C7: test_api_health returns the same boolean as the generic checker
test_endpoint applied to {API_URL}/health; a JSON parse failure is silently
ignored and the result falls back to the generic status-code logic.  Stated
for a server that answers the (at most two) consecutive GETs of the health URL
alike, since the fallback physically repeats the request. -/
theorem c7_health_refines_generic (w : World) (cfg : Config) (st : TraceState)
    (h : w.oracle (st.count + 1) = w.oracle st.count) :
    (test_api_health w cfg st).1 = healthCheckSpec w cfg st := by
  unfold healthCheckSpec
  by_cases h0 : w.oracle st.count = GetOutcome.response 200 true
  · rw [test_api_health_ok w cfg st h0,
        test_endpoint_response w _ 200 st 200 true h0]
    simp
  · rw [test_api_health_fallback w cfg st h0]
    cases hr : w.oracle st.count with
    | response s b =>
        rw [test_endpoint_response w _ 200 _ s b (h.trans hr),
            test_endpoint_response w _ 200 st s b hr]
    | connectionError =>
        rw [test_endpoint_exn w _ 200 _ (Or.inl (h.trans hr)),
            test_endpoint_exn w _ 200 st (Or.inl hr)]
    | timeout =>
        rw [test_endpoint_exn w _ 200 _ (Or.inr (Or.inl (h.trans hr))),
            test_endpoint_exn w _ 200 st (Or.inr (Or.inl hr))]
    | otherError =>
        rw [test_endpoint_exn w _ 200 _ (Or.inr (Or.inr (h.trans hr))),
            test_endpoint_exn w _ 200 st (Or.inr (Or.inr hr))]

/-- Witness for C7 at a server constantly answering HTTP 500. -/
theorem c7_witness :
    (test_api_health ⟨fun _ => GetOutcome.response 500 false⟩ ⟨"a", "d", "x"⟩ ⟨0, []⟩).1 =
      healthCheckSpec ⟨fun _ => GetOutcome.response 500 false⟩ ⟨"a", "d", "x"⟩ ⟨0, []⟩ :=
  c7_health_refines_generic ⟨fun _ => GetOutcome.response 500 false⟩ ⟨"a", "d", "x"⟩
    ⟨0, []⟩ rfl

/-- Claim C8: main issues the checks in the fixed order API health, API root,
dashboard, then (conditionally) workspaces, and the results list records the
(name, boolean) pairs in exactly that order of issuance: the name sequence of
the results list and the URL sequence of the request trace follow the same
fixed order. -/
theorem c8_issuance_order (w : World) (cfg : Config) :
    (main_results w cfg).1.map Prod.fst =
      ["API Health", "API Root", "Dashboard"] ++
        (if cfg.authMode = "multi-tenant" then ["Workspaces"] else []) ∧
    (main_results w cfg).2.urls =
      (if w.oracle 0 = GetOutcome.response 200 true
        then [cfg.apiUrl ++ "/health"]
        else [cfg.apiUrl ++ "/health", cfg.apiUrl ++ "/health"]) ++
      [cfg.apiUrl, cfg.dashboardUrl] ++
      (if cfg.authMode = "multi-tenant" then [cfg.apiUrl ++ "/api/workspaces"] else []) :=
  ⟨main_results_names w cfg, main_results_urls w cfg⟩

/-- A server answering the first request with HTTP 500 (non-JSON body) and
every later request with a timeout. -/
def w500ThenTimeout : World :=
  ⟨fun n => if n = 0 then GetOutcome.response 500 false else GetOutcome.timeout⟩

/-- A server refusing the first connection and timing out on every later
request. -/
def wConnThenTimeout : World :=
  ⟨fun n => if n = 0 then GetOutcome.connectionError else GetOutcome.timeout⟩

/-- Claim C9 (implicit): whenever the first GET issued by test_api_health does
not yield a status-200 response whose body parses as JSON, a second GET is
issued to the same URL (the trace grows by two copies of the health URL), and
the returned boolean is determined entirely by the second response: two worlds
that disagree on the first answer but agree on the second yield the same
boolean. -/
theorem c9_fallback_second_get (w w' : World) (cfg : Config) (st : TraceState)
    (h : w.oracle st.count ≠ GetOutcome.response 200 true)
    (h' : w'.oracle st.count ≠ GetOutcome.response 200 true) :
    (test_api_health w cfg st).2.count = st.count + 2 ∧
    (test_api_health w cfg st).2.urls =
      st.urls ++ [cfg.apiUrl ++ "/health", cfg.apiUrl ++ "/health"] ∧
    (w'.oracle (st.count + 1) = w.oracle (st.count + 1) →
      (test_api_health w' cfg st).1 = (test_api_health w cfg st).1) := by
  refine ⟨?_, ?_, ?_⟩
  · rw [test_api_health_fallback w cfg st h, test_endpoint_snd]
  · rw [test_api_health_fallback w cfg st h, test_endpoint_snd]
    simp
  · intro he
    rw [test_api_health_fallback w cfg st h, test_api_health_fallback w' cfg st h']
    cases hr : w.oracle (st.count + 1) with
    | response s b =>
        rw [test_endpoint_response w _ 200 _ s b hr,
            test_endpoint_response w' _ 200 _ s b (he.trans hr)]
    | connectionError =>
        rw [test_endpoint_exn w _ 200 _ (Or.inl hr),
            test_endpoint_exn w' _ 200 _ (Or.inl (he.trans hr))]
    | timeout =>
        rw [test_endpoint_exn w _ 200 _ (Or.inr (Or.inl hr)),
            test_endpoint_exn w' _ 200 _ (Or.inr (Or.inl (he.trans hr)))]
    | otherError =>
        rw [test_endpoint_exn w _ 200 _ (Or.inr (Or.inr hr)),
            test_endpoint_exn w' _ 200 _ (Or.inr (Or.inr (he.trans hr)))]

/-- Witness for C9: one server answers the first GET with HTTP 500, another
refuses the connection; both time out on the second GET and return the same
boolean. -/
theorem c9_witness :
    (test_api_health w500ThenTimeout ⟨"a", "d", "x"⟩ ⟨0, []⟩).2.count = 2 ∧
    (test_api_health w500ThenTimeout ⟨"a", "d", "x"⟩ ⟨0, []⟩).2.urls =
      [] ++ ["a" ++ "/health", "a" ++ "/health"] ∧
    (wConnThenTimeout.oracle (0 + 1) = w500ThenTimeout.oracle (0 + 1) →
      (test_api_health wConnThenTimeout ⟨"a", "d", "x"⟩ ⟨0, []⟩).1 =
        (test_api_health w500ThenTimeout ⟨"a", "d", "x"⟩ ⟨0, []⟩).1) :=
  c9_fallback_second_get w500ThenTimeout wConnThenTimeout ⟨"a", "d", "x"⟩ ⟨0, []⟩
    (by decide) (by decide)

/-- Claim C10 (implicit): for every run, the results list has length 3 or 4,
its names are exactly "API Health", "API Root", "Dashboard" (with "Workspaces"
only in the length-4 case) in that order, the printed passed count is the
number of true entries and never exceeds the total, and main returns only 0 or
1. -/
theorem c10_summary_invariants (w : World) (cfg : Config) :
    ((main_results w cfg).1.length = 3 ∨ (main_results w cfg).1.length = 4) ∧
    (main_results w cfg).1.map Prod.fst =
      (if (main_results w cfg).1.length = 4
        then ["API Health", "API Root", "Dashboard", "Workspaces"]
        else ["API Health", "API Root", "Dashboard"]) ∧
    passed_count (main_results w cfg).1 =
      (main_results w cfg).1.countP (fun p => p.2) ∧
    passed_count (main_results w cfg).1 ≤ (main_results w cfg).1.length ∧
    (main_exit w cfg = 0 ∨ main_exit w cfg = 1) := by
  refine ⟨?_, ?_, ?_, passed_count_le _, ?_⟩
  · rw [main_results_length]
    by_cases hm : cfg.authMode = "multi-tenant" <;> simp [hm]
  · rw [main_results_names, main_results_length]
    by_cases hm : cfg.authMode = "multi-tenant" <;> simp [hm]
  · simp only [passed_count]
    exact (List.countP_eq_length_filter _ _).symm
  · by_cases hc : passed_count (main_results w cfg).1 = (main_results w cfg).1.length <;>
      simp [main_exit, hc]
